import Mathlib

/-!
Shallow embedding of the PoolPy pool game (Python sources: `poolpy/utils.py`,
`poolpy/ball.py`, `poolpy/table.py`, `poolpy/globals.py`), together with
theorems settling the specification claims about it.

Conventions of the embedding:
* Python floats are embedded as real numbers; float literals such as `0.15`
  denote the corresponding rationals.
* `x ** 0.5` applied to a nonnegative float is embedded as `Real.sqrt`, and
  `math.sqrt` likewise.
* Python object identity on balls (`ball is self.cue_ball`, `list.remove`)
  is embedded through the `ball_id` carried by every ball: in the program the
  cue ball has id 0 and the racked object balls have ids 1..15, so ids are
  unique and identity coincides with id equality.
* Rendering, audio and input polling are external collaborators; functions
  that read the mouse in the source receive the mouse position as an argument
  here, and drawing/audio statements are omitted.
-/

namespace PoolPy

open scoped Classical

noncomputable section

/-- 2D vector, `utils.py` class `Vector2` (fields `x`, `y`). -/
@[ext]
structure Vector2 where
  x : ℝ
  y : ℝ

/-- `utils.py` lines 46-53: `length` returns `(x ** 2 + y ** 2) ** 0.5`. -/
def Vector2.length (v : Vector2) : ℝ := Real.sqrt (v.x ^ 2 + v.y ^ 2)

/-- `utils.py` `__add__`: componentwise addition. -/
instance : Add Vector2 := ⟨fun a b => ⟨a.x + b.x, a.y + b.y⟩⟩

/-- `utils.py` `__sub__`: componentwise subtraction. -/
instance : Sub Vector2 := ⟨fun a b => ⟨a.x - b.x, a.y - b.y⟩⟩

/-- `utils.py` `__mul__` / `__rmul__`: both return `Vector2(x * scalar, y * scalar)`,
so scalar-on-the-left multiplication is embedded with the same components. -/
instance : HMul ℝ Vector2 Vector2 := ⟨fun s v => ⟨v.x * s, v.y * s⟩⟩

@[simp] theorem Vector2.add_x (a b : Vector2) : (a + b).x = a.x + b.x := rfl

@[simp] theorem Vector2.add_y (a b : Vector2) : (a + b).y = a.y + b.y := rfl

@[simp] theorem Vector2.sub_x (a b : Vector2) : (a - b).x = a.x - b.x := rfl

@[simp] theorem Vector2.sub_y (a b : Vector2) : (a - b).y = a.y - b.y := rfl

@[simp] theorem Vector2.smul_x (s : ℝ) (v : Vector2) : (s * v).x = v.x * s := rfl

@[simp] theorem Vector2.smul_y (s : ℝ) (v : Vector2) : (s * v).y = v.y * s := rfl

/-- `utils.py` lines 55-65: `normalise` divides by the length when it is
nonzero and returns the zero vector `Vector2()` otherwise. -/
def Vector2.normalise (v : Vector2) : Vector2 :=
  let mag := v.length
  if mag ≠ 0 then Vector2.mk (v.x / mag) (v.y / mag) else Vector2.mk 0 0

/-- `utils.py` lines 67-75: dot product. -/
def Vector2.dot (a b : Vector2) : ℝ := a.x * b.x + a.y * b.y

/-! Constants from `globals.py` (physics constants and the colours the
game logic inspects). -/

def MAX_POWER : ℝ := 20

def MAX_POWER_LINE_LENGTH : ℝ := 150

def TABLE_FRICTION_FACTOR : ℝ := 0.990

def WALL_RESTITUTION_FACTOR : ℝ := 0.80

def BALL_WHITE : ℕ × ℕ × ℕ := (245, 245, 245)

def BLACK_BALL : ℕ × ℕ × ℕ := (32, 32, 32)

def YELLOW : ℕ × ℕ × ℕ := (255, 204, 0)

def BLUE : ℕ × ℕ × ℕ := (0, 121, 234)

def RED : ℕ × ℕ × ℕ := (222, 35, 35)

def PURPLE : ℕ × ℕ × ℕ := (156, 44, 212)

def ORANGE : ℕ × ℕ × ℕ := (255, 102, 0)

def GREEN : ℕ × ℕ × ℕ := (0, 200, 0)

def BURGUNDY : ℕ × ℕ × ℕ := (128, 0, 32)

def BALL_COLOURS : List (ℕ × ℕ × ℕ) := [YELLOW, BLUE, RED, PURPLE, ORANGE, GREEN, BURGUNDY]

/-- `ball.py` lines 28-36: the `BallType` enum. -/
inductive BallType where
  | Solid
  | Stripe
  | Cue
  | Black
deriving DecidableEq

/-- `ball.py` class `Ball`. The constructor sets `radius = 10` and
`velocity = Vector2(0, 0)`; the audio channel is external and omitted. -/
@[ext]
structure Ball where
  x : ℝ
  y : ℝ
  colour : ℕ × ℕ × ℕ
  ball_type : BallType
  ball_id : ℤ
  radius : ℝ
  velocity : Vector2

/-- `ball.py` lines 100-109: `apply_wall_collision` splits the velocity into
the component perpendicular to the wall (along the normal) and the parallel
remainder, and damps and inverts only the perpendicular part. -/
def Ball.apply_wall_collision (b : Ball) (normal : Vector2) : Ball :=
  let velocity_perpendicular := (b.velocity.dot normal) * normal
  let velocity_parallel := b.velocity - velocity_perpendicular
  { b with velocity := (-WALL_RESTITUTION_FACTOR) * velocity_perpendicular + velocity_parallel }

/-- `ball.py` lines 111-128: `is_colliding_with_ball`. The source mutates only
`self.x`/`self.y` on overlap (never `other`), so the embedding returns the
flag, the updated receiver and the (unchanged) other ball. -/
def Ball.is_colliding_with_ball (self other : Ball) : Bool × Ball × Ball :=
  let distance_between_centers := Real.sqrt ((self.x - other.x) ^ 2 + (self.y - other.y) ^ 2)
  if distance_between_centers < 2 * self.radius then
    let away_from_ball := (Vector2.mk self.x self.y - Vector2.mk other.x other.y).normalise
    (true,
      { self with
          x := self.x + |self.radius - distance_between_centers / 2| * away_from_ball.x,
          y := self.y + |self.radius - distance_between_centers / 2| * away_from_ball.y },
      other)
  else (false, self, other)

/-- `ball.py` lines 130-145: `apply_ball_collision` updates both velocities in
one call (the trailing audio playback is external and omitted). Note the
source divides by the squared distance: at coincident centers Python would
raise `ZeroDivisionError`; the claims about this function assume distinct
positions. -/
def Ball.apply_ball_collision (self other : Ball) : Ball × Ball :=
  let vAi := self.velocity
  let vBi := other.velocity
  let rA := Vector2.mk self.x self.y
  let rB := Vector2.mk other.x other.y
  let self' := { self with
    velocity := vAi - ((vAi - vBi).dot (rA - rB)) / ((rB - rA).length ^ 2) * (rA - rB) }
  let other' := { other with
    velocity := vBi - ((vBi - vAi).dot (rB - rA)) / ((rA - rB).length ^ 2) * (rB - rA) }
  (self', other')

/-! Claims C3, C4, C7. -/

/-- Helper: a sum of two squares is positive when one base is nonzero. -/
theorem sq_add_sq_pos {p q : ℝ} (h : p ≠ 0 ∨ q ≠ 0) : 0 < p ^ 2 + q ^ 2 := by
  rcases h with h | h
  · have h1 : 0 < p ^ 2 := (sq_nonneg p).lt_of_ne (Ne.symm (pow_ne_zero 2 h))
    have h2 := sq_nonneg q
    linarith
  · have h1 : 0 < q ^ 2 := (sq_nonneg q).lt_of_ne (Ne.symm (pow_ne_zero 2 h))
    have h2 := sq_nonneg p
    linarith

/-- C3: a single call to `Ball.apply_ball_collision` on two balls at distinct
positions updates both velocities symmetrically and conserves total momentum
for equal masses: the sum of the two velocities after the call equals the sum
before it (exact arithmetic over the embedded update formulas). -/
theorem C3_momentum_conserved (a b : Ball) (h : ¬(a.x = b.x ∧ a.y = b.y)) :
    (a.apply_ball_collision b).1.velocity + (a.apply_ball_collision b).2.velocity
      = a.velocity + b.velocity := by
  have hx : b.x - a.x ≠ 0 ∨ b.y - a.y ≠ 0 := by
    rcases not_and_or.mp h with h1 | h1
    · exact Or.inl (sub_ne_zero.mpr (Ne.symm h1))
    · exact Or.inr (sub_ne_zero.mpr (Ne.symm h1))
  have hx' : a.x - b.x ≠ 0 ∨ a.y - b.y ≠ 0 := by
    rcases hx with h1 | h1
    · exact Or.inl (fun hc => h1 (by linarith [sub_eq_zero.mp hc]))
    · exact Or.inr (fun hc => h1 (by linarith [sub_eq_zero.mp hc]))
  have hd : 0 < (b.x - a.x) ^ 2 + (b.y - a.y) ^ 2 := sq_add_sq_pos hx
  have hd' : 0 < (a.x - b.x) ^ 2 + (a.y - b.y) ^ 2 := sq_add_sq_pos hx'
  have hs1 : Real.sqrt ((b.x - a.x) ^ 2 + (b.y - a.y) ^ 2) ^ 2
      = (b.x - a.x) ^ 2 + (b.y - a.y) ^ 2 := Real.sq_sqrt hd.le
  have hs2 : Real.sqrt ((a.x - b.x) ^ 2 + (a.y - b.y) ^ 2) ^ 2
      = (a.x - b.x) ^ 2 + (a.y - b.y) ^ 2 := Real.sq_sqrt hd'.le
  ext
  · simp only [Ball.apply_ball_collision, Vector2.dot, Vector2.length, Vector2.add_x,
      Vector2.sub_x, Vector2.sub_y, Vector2.smul_x]
    rw [hs1, hs2]
    field_simp
    ring
  · simp only [Ball.apply_ball_collision, Vector2.dot, Vector2.length, Vector2.add_y,
      Vector2.sub_x, Vector2.sub_y, Vector2.smul_y]
    rw [hs1, hs2]
    field_simp
    ring

/-- C3 witness: the conservation law at two concrete balls at distinct
positions. -/
theorem C3_witness :
    let a : Ball := ⟨0, 0, BALL_WHITE, BallType.Cue, 0, 10, ⟨1, 0⟩⟩
    let b : Ball := ⟨16, 0, YELLOW, BallType.Solid, 1, 10, ⟨0, 0⟩⟩
    (a.apply_ball_collision b).1.velocity + (a.apply_ball_collision b).2.velocity
      = a.velocity + b.velocity := by
  intro a b
  exact C3_momentum_conserved a b (by norm_num)

/-- C4: for a unit wall normal `n`, `Ball.apply_wall_collision` inverts and
damps the perpendicular velocity component (`result . n = -k * (v . n)` with
`k` the wall restitution factor) and preserves the parallel component
(`result - (result . n) n = v - (v . n) n`). -/
theorem C4_wall_reflection (b : Ball) (n : Vector2) (h : n.x ^ 2 + n.y ^ 2 = 1) :
    (b.apply_wall_collision n).velocity.dot n
        = -WALL_RESTITUTION_FACTOR * (b.velocity.dot n)
      ∧ (b.apply_wall_collision n).velocity - ((b.apply_wall_collision n).velocity.dot n) * n
        = b.velocity - (b.velocity.dot n) * n := by
  refine ⟨?_, ?_⟩
  · simp only [Ball.apply_wall_collision, Vector2.dot, Vector2.add_x, Vector2.add_y,
      Vector2.sub_x, Vector2.sub_y, Vector2.smul_x, Vector2.smul_y]
    linear_combination
      (-(1 + WALL_RESTITUTION_FACTOR) * (b.velocity.x * n.x + b.velocity.y * n.y)) * h
  · ext
    · simp only [Ball.apply_wall_collision, Vector2.dot, Vector2.add_x, Vector2.add_y,
        Vector2.sub_x, Vector2.sub_y, Vector2.smul_x, Vector2.smul_y]
      linear_combination
        (n.x * (b.velocity.x * n.x + b.velocity.y * n.y) * (1 + WALL_RESTITUTION_FACTOR)) * h
    · simp only [Ball.apply_wall_collision, Vector2.dot, Vector2.add_x, Vector2.add_y,
        Vector2.sub_x, Vector2.sub_y, Vector2.smul_x, Vector2.smul_y]
      linear_combination
        (n.y * (b.velocity.x * n.x + b.velocity.y * n.y) * (1 + WALL_RESTITUTION_FACTOR)) * h

/-- C4 witness: the reflection law at a concrete ball and the concrete top-wall
normal `(0, 1)`. -/
theorem C4_witness :
    let b : Ball := ⟨200, 200, BALL_WHITE, BallType.Cue, 0, 10, ⟨3, 4⟩⟩
    let n : Vector2 := ⟨0, 1⟩
    (b.apply_wall_collision n).velocity.dot n
        = -WALL_RESTITUTION_FACTOR * (b.velocity.dot n)
      ∧ (b.apply_wall_collision n).velocity - ((b.apply_wall_collision n).velocity.dot n) * n
        = b.velocity - (b.velocity.dot n) * n := by
  intro b n
  exact C4_wall_reflection b n (by norm_num)

/-- C7: `Vector2.normalise` on a zero-length vector returns the zero vector;
the division branch is guarded by the `mag != 0` test, so the operation is
total and never divides by zero. -/
theorem C7_normalise_zero (v : Vector2) (h : v.length = 0) :
    v.normalise = Vector2.mk 0 0 := by
  simp [Vector2.normalise, h]

/-- C7 witness: the zero vector itself has length zero and normalises to the
zero vector. -/
theorem C7_witness : (Vector2.mk 0 0).normalise = Vector2.mk 0 0 := by
  have h : (Vector2.mk 0 0).length = 0 := by
    simp [Vector2.length]
  exact C7_normalise_zero (Vector2.mk 0 0) h

/-! Pocket detection, `ball.py` lines 154-175. -/

/-- The six pocket names: the keys of the `pocket_centers` dict in
`ball.py` (and of `Table.pockets` in `table.py`). -/
inductive PocketName where
  | top_left
  | top_right
  | center_left
  | center_right
  | bottom_left
  | bottom_right
deriving DecidableEq

/-- `ball.py` lines 161-168: the six fixed pocket centers, with the source's
coordinate arithmetic kept as written. -/
def pocket_centers : List (PocketName × ℝ × ℝ) :=
  [(.top_left, 150 + 5, 100 + 5),
   (.top_right, 300 + 150 - 5, 100 + 5),
   (.center_left, 150, 100 + 250),
   (.center_right, 300 + 150, 100 + 250),
   (.bottom_left, 150 + 5, 500 + 100 - 5),
   (.bottom_right, 300 + 150 - 5, 500 + 100 - 5)]

/-- `ball.py` line 171: distance from the ball's center to a pocket center. -/
def pocket_distance (b : Ball) (cx cy : ℝ) : ℝ :=
  Real.sqrt ((b.x - cx) ^ 2 + (b.y - cy) ^ 2)

/-- `ball.py` line 173: the overlap fraction
`((radius + 15 - distance) ** 2) / (4 * max(radius, 15) ** 2)`. -/
def overlap_fraction (b : Ball) (cx cy : ℝ) : ℝ :=
  (b.radius + 15 - pocket_distance b cx cy) ^ 2 / (4 * (max b.radius 15) ^ 2)

/-- `ball.py` lines 170-175: the loop of `is_in_pocket` over the remaining
pockets. It returns the first pocket whose distance guard and overlap
threshold both pass, and otherwise falls through (Python implicitly returns
`None` at the end of the loop). -/
def isInPocketAux (b : Ball) : List (PocketName × ℝ × ℝ) → Option PocketName
  | [] => none
  | (pocket, cx, cy) :: rest =>
    if pocket_distance b cx cy < b.radius + 15 then
      if overlap_fraction b cx cy ≥ 0.15 then some pocket
      else isInPocketAux b rest
    else isInPocketAux b rest

/-- `ball.py` lines 154-175: `is_in_pocket`. -/
def Ball.is_in_pocket (b : Ball) : Option PocketName :=
  isInPocketAux b pocket_centers

/-- The loop of `is_in_pocket` finds a pocket exactly when some pocket in the
list passes both the distance guard and the overlap threshold. -/
theorem isInPocketAux_isSome_iff (b : Ball) (l : List (PocketName × ℝ × ℝ)) :
    (isInPocketAux b l).isSome
      ↔ ∃ e ∈ l, pocket_distance b e.2.1 e.2.2 < b.radius + 15
          ∧ overlap_fraction b e.2.1 e.2.2 ≥ 0.15 := by
  induction l with
  | nil => simp [isInPocketAux]
  | cons hd tl ih =>
    obtain ⟨pocket, cx, cy⟩ := hd
    by_cases h1 : pocket_distance b cx cy < b.radius + 15
    · by_cases h2 : overlap_fraction b cx cy ≥ 0.15
      · simp [isInPocketAux, h1, h2]
      · simp [isInPocketAux, h1, h2, ih]
    · simp [isInPocketAux, h1, ih]

/-- C6: `Ball.is_in_pocket` returns a pocket name iff the overlap fraction the
code computes for one of the six fixed pocket centers (computed only inside
the capture range `distance < radius + 15`) reaches the 0.15 threshold; in
particular it returns none whenever the ball's center is more than
`radius + 15` (ball radius plus pocket capture radius) away from every pocket
center. -/
theorem C6_pocket_capture (b : Ball) :
    ((b.is_in_pocket).isSome
        ↔ ∃ e ∈ pocket_centers,
            pocket_distance b e.2.1 e.2.2 < b.radius + 15
              ∧ overlap_fraction b e.2.1 e.2.2 ≥ 0.15)
      ∧ ((∀ e ∈ pocket_centers, pocket_distance b e.2.1 e.2.2 > b.radius + 15)
          → b.is_in_pocket = none) := by
  constructor
  · exact isInPocketAux_isSome_iff b pocket_centers
  · intro hfar
    by_contra hne
    have hs : (b.is_in_pocket).isSome := Option.ne_none_iff_isSome.mp hne
    obtain ⟨e, he, hlt, -⟩ := (isInPocketAux_isSome_iff b pocket_centers).mp hs
    exact absurd hlt (not_lt.mpr (hfar e he).le)

/-- A concrete object ball sitting exactly on the top-left pocket center. -/
def B6 : Ball := ⟨150 + 5, 100 + 5, RED, BallType.Solid, 3, 10, ⟨0, 0⟩⟩

/-- C6 witness: the concrete ball `B6` on the top-left pocket center passes
both conditions and is reported as pocketed. -/
theorem C6_witness : (B6.is_in_pocket).isSome = true := by
  have hd : pocket_distance B6 (150 + 5) (100 + 5) = 0 := by
    norm_num [pocket_distance, B6]
  have hm : max B6.radius (15 : ℝ) = 15 := max_eq_right (by norm_num [B6])
  refine (C6_pocket_capture B6).1.mpr ⟨(.top_left, 150 + 5, 100 + 5), ?_, ?_, ?_⟩
  · simp [pocket_centers]
  · show pocket_distance B6 (150 + 5) (100 + 5) < B6.radius + 15
    rw [hd]
    norm_num [B6]
  · show overlap_fraction B6 (150 + 5) (100 + 5) ≥ 0.15
    rw [overlap_fraction, hd, hm]
    norm_num [B6]

/-! Claim C5: the ball-ball overlap test and separation push. -/

theorem Vector2.normalise_x (v : Vector2) (h : v.length ≠ 0) :
    v.normalise.x = v.x / v.length := by
  simp [Vector2.normalise, h]

theorem Vector2.normalise_y (v : Vector2) (h : v.length ≠ 0) :
    v.normalise.y = v.y / v.length := by
  simp [Vector2.normalise, h]

/-- C5 amended: `Ball.is_colliding_with_ball` reports a collision exactly when
the center distance is strictly below the sum of the (equal) radii, and on
overlap it displaces only the receiving ball, pushing it away from the other
ball along the center-to-center axis by half the penetration depth
`2 * radius - distance`; the other ball is returned untouched (the mutual
separation in the program arises from `Table.update_balls` visiting both
ordered pairs, not from a single call). -/
theorem C5_collision_overlap_and_push (a b : Ball)
    (hra : a.radius = 10) (hrb : b.radius = 10) :
    ((a.is_colliding_with_ball b).1 = true
        ↔ Real.sqrt ((a.x - b.x) ^ 2 + (a.y - b.y) ^ 2) < a.radius + b.radius)
      ∧ (a.is_colliding_with_ball b).2.2 = b
      ∧ ∀ d, d = Real.sqrt ((a.x - b.x) ^ 2 + (a.y - b.y) ^ 2)
          → d < a.radius + b.radius → ¬(a.x = b.x ∧ a.y = b.y)
          → (a.is_colliding_with_ball b).2.1.x
                = a.x + (2 * a.radius - d) / 2 * ((a.x - b.x) / d)
            ∧ (a.is_colliding_with_ball b).2.1.y
                = a.y + (2 * a.radius - d) / 2 * ((a.y - b.y) / d) := by
  have hkey : Real.sqrt ((a.x - b.x) ^ 2 + (a.y - b.y) ^ 2) < 2 * a.radius
      ↔ Real.sqrt ((a.x - b.x) ^ 2 + (a.y - b.y) ^ 2) < a.radius + b.radius := by
    rw [hra, hrb]
    norm_num
  refine ⟨?_, ?_, ?_⟩
  · by_cases hc : Real.sqrt ((a.x - b.x) ^ 2 + (a.y - b.y) ^ 2) < 2 * a.radius
    · simp [Ball.is_colliding_with_ball, hc, hkey.mp hc]
    · simp only [Ball.is_colliding_with_ball, if_neg hc]
      simpa using fun hcon => hc (hkey.mpr hcon)
  · by_cases hc : Real.sqrt ((a.x - b.x) ^ 2 + (a.y - b.y) ^ 2) < 2 * a.radius
    · simp [Ball.is_colliding_with_ball, hc]
    · simp [Ball.is_colliding_with_ball, hc]
  · intro d hd hlt hne
    have hx : a.x - b.x ≠ 0 ∨ a.y - b.y ≠ 0 := by
      rcases not_and_or.mp hne with h1 | h1
      · exact Or.inl (sub_ne_zero.mpr h1)
      · exact Or.inr (sub_ne_zero.mpr h1)
    have hd0 : 0 < d := by
      rw [hd]
      exact Real.sqrt_pos.mpr (sq_add_sq_pos hx)
    have hc : Real.sqrt ((a.x - b.x) ^ 2 + (a.y - b.y) ^ 2) < 2 * a.radius := by
      rw [← hd]
      rw [hra, hrb] at hlt
      rw [hra]
      linarith
    have hmag : (Vector2.mk a.x a.y - Vector2.mk b.x b.y).length = d := by
      rw [hd]
      simp [Vector2.length]
    have hmag0 : (Vector2.mk a.x a.y - Vector2.mk b.x b.y).length ≠ 0 := by
      rw [hmag]
      exact hd0.ne'
    have habs : |a.radius - Real.sqrt ((a.x - b.x) ^ 2 + (a.y - b.y) ^ 2) / 2|
        = a.radius - d / 2 := by
      rw [← hd, hra]
      rw [hra, hrb] at hlt
      exact abs_of_nonneg (by linarith)
    constructor
    · simp only [Ball.is_colliding_with_ball, if_pos hc]
      rw [Vector2.normalise_x _ hmag0, hmag, habs]
      simp only [Vector2.sub_x]
      ring
    · simp only [Ball.is_colliding_with_ball, if_pos hc]
      rw [Vector2.normalise_y _ hmag0, hmag, habs]
      simp only [Vector2.sub_y]
      ring

/-- Concrete overlapping balls used for claim C5. -/
def A5 : Ball := ⟨0, 0, BALL_WHITE, BallType.Cue, 0, 10, ⟨0, 0⟩⟩

/-- Concrete overlapping balls used for claim C5. -/
def B5 : Ball := ⟨16, 0, YELLOW, BallType.Solid, 1, 10, ⟨0, 0⟩⟩

/-- C5 counterexample: for the concrete overlapping balls `A5` (at the origin)
and `B5` (at x = 16), a single call detects the collision and moves only the
receiving ball `A5` (to x = -2); the other ball comes back exactly as passed
in, refuting the claim that both balls' positions change in one call. -/
theorem C5_counterexample :
    (A5.is_colliding_with_ball B5).1 = true
      ∧ (A5.is_colliding_with_ball B5).2.1.x = -2
      ∧ (A5.is_colliding_with_ball B5).2.2 = B5
      ∧ B5.x = 16 ∧ B5.y = 0 := by
  have h256 : Real.sqrt ((A5.x - B5.x) ^ 2 + (A5.y - B5.y) ^ 2) = 16 := by
    rw [show (A5.x - B5.x) ^ 2 + (A5.y - B5.y) ^ 2 = 16 ^ 2 by norm_num [A5, B5]]
    exact Real.sqrt_sq (by norm_num)
  have hc : Real.sqrt ((A5.x - B5.x) ^ 2 + (A5.y - B5.y) ^ 2) < 2 * A5.radius := by
    rw [h256]
    norm_num [A5]
  have hmag : (Vector2.mk A5.x A5.y - Vector2.mk B5.x B5.y).length = 16 := by
    simp only [Vector2.length, Vector2.sub_x, Vector2.sub_y]
    exact h256
  refine ⟨?_, ?_, ?_, by norm_num [B5], by norm_num [B5]⟩
  · simp [Ball.is_colliding_with_ball, hc]
  · simp only [Ball.is_colliding_with_ball, if_pos hc]
    rw [Vector2.normalise_x _ (by rw [hmag]; norm_num), hmag, h256]
    simp only [Vector2.sub_x]
    norm_num [A5, B5]
  · simp [Ball.is_colliding_with_ball, hc]

/-- C5 witness: the amended statement applied to the concrete balls `A5` and
`B5`, whose center distance is 16. -/
theorem C5_witness :
    (A5.is_colliding_with_ball B5).1 = true
      ∧ (A5.is_colliding_with_ball B5).2.1.x
          = A5.x + (2 * A5.radius - 16) / 2 * ((A5.x - B5.x) / 16)
      ∧ (A5.is_colliding_with_ball B5).2.2 = B5 := by
  have h := C5_collision_overlap_and_push A5 B5 (by norm_num [A5]) (by norm_num [B5])
  have h256 : (16 : ℝ) = Real.sqrt ((A5.x - B5.x) ^ 2 + (A5.y - B5.y) ^ 2) := by
    rw [show (A5.x - B5.x) ^ 2 + (A5.y - B5.y) ^ 2 = 16 ^ 2 by norm_num [A5, B5]]
    exact (Real.sqrt_sq (by norm_num)).symm
  refine ⟨h.1.mpr ?_, (h.2.2 16 h256 ?_ ?_).1, h.2.1⟩
  · rw [← h256]
    norm_num [A5, B5]
  · norm_num [A5, B5]
  · norm_num [A5, B5]

/-! Ray casting, `utils.py` class `Ray` (lines 146-206). -/

/-- `utils.py` class `Ray`: an origin position and a direction. -/
structure Ray where
  position : Vector2
  direction : Vector2

/-- `utils.py` lines 151-161, `Ray.__init__`: the stored direction is the
normalised input direction. -/
def mkRay (position direction : Vector2) : Ray :=
  ⟨position, direction.normalise⟩

/-- `utils.py` lines 163-184: `cast_to_line_segment`. Python divides by the
determinant `dx*(y2-y1) - dy*(x2-x1)` and catches `ZeroDivisionError`,
returning `None`; the embedding tests that determinant for zero directly.
(`finish` stands for the source's parameter `end`, a reserved word here.) -/
def Ray.cast_to_line_segment (r : Ray) (start finish : Vector2) : Option Vector2 :=
  let x0 := r.position.x
  let y0 := r.position.y
  let dx := r.direction.x
  let dy := r.direction.y
  let x1 := start.x
  let y1 := start.y
  let x2 := finish.x
  let y2 := finish.y
  if dx * (y2 - y1) - dy * (x2 - x1) = 0 then none
  else
    let t := ((x1 - x0) * (y2 - y1) - (y1 - y0) * (x2 - x1)) / (dx * (y2 - y1) - dy * (x2 - x1))
    let u := ((x1 - x0) * dy - (y1 - y0) * dx) / (dx * (y2 - y1) - dy * (x2 - x1))
    if t ≥ 0 ∧ 0 ≤ u ∧ u ≤ 1 then some (r.position + t * r.direction) else none

/-- `utils.py` lines 186-206: `cast_to_circle` via the projected-distance
discriminant method; returns the near intersection `t = -b - sqrt(b^2 - c)`
when the discriminant is nonnegative and `t >= 0`. -/
def Ray.cast_to_circle (r : Ray) (center : Vector2) (radius : ℝ) : Option Vector2 :=
  let x0 := r.position.x
  let y0 := r.position.y
  let dx := r.direction.x
  let dy := r.direction.y
  let b := (x0 - center.x) * dx + (y0 - center.y) * dy
  let c := (x0 - center.x) ^ 2 + (y0 - center.y) ^ 2 - radius ^ 2
  if b ^ 2 - c ≥ 0 then
    let t := -b - Real.sqrt (b ^ 2 - c)
    if t ≥ 0 then some (r.position + t * r.direction) else none
  else none

/-- Normalising the zero vector yields the zero vector. -/
theorem Vector2.normalise_zero : (Vector2.mk 0 0).normalise = Vector2.mk 0 0 := by
  norm_num [Vector2.normalise, Vector2.length]

/-- C8 counterexample: a ray built with a zero-length direction whose origin
lies exactly on the target circle reports a hit (the origin itself): with
direction `(0,0)` the projected distance `b` is `0` and the discriminant is
`radius^2 - dist^2 = 0`, so `t = 0 >= 0` passes and the origin is returned.
This refutes the claim that a degenerate ray's intersection tests always
report no hit. -/
theorem C8_counterexample :
    (mkRay ⟨10, 0⟩ ⟨0, 0⟩).cast_to_circle ⟨0, 0⟩ 10 = some (Vector2.mk 10 0) := by
  have hdir : (mkRay ⟨10, 0⟩ ⟨0, 0⟩).direction = Vector2.mk 0 0 := by
    rw [mkRay]
    exact Vector2.normalise_zero
  have hpos10 : (mkRay ⟨10, 0⟩ ⟨0, 0⟩).position = Vector2.mk 10 0 := rfl
  simp only [Ray.cast_to_circle, hdir, hpos10]
  norm_num
  ext <;> simp

/-- C8 amended: a ray constructed with a zero-length direction is degenerate:
`cast_to_line_segment` reports no hit for every segment, and `cast_to_circle`
reports no hit for every circle unless the ray's origin lies exactly on the
circle, in which case it returns the origin itself; moreover, for every ray,
the parallel / zero-determinant case of `cast_to_line_segment` returns no
intersection rather than failing. -/
theorem C8_degenerate_ray (pos s e c : Vector2) (radius : ℝ) :
    (mkRay pos ⟨0, 0⟩).cast_to_line_segment s e = none
      ∧ ((pos.x - c.x) ^ 2 + (pos.y - c.y) ^ 2 = radius ^ 2
          → (mkRay pos ⟨0, 0⟩).cast_to_circle c radius = some pos)
      ∧ ((pos.x - c.x) ^ 2 + (pos.y - c.y) ^ 2 ≠ radius ^ 2
          → (mkRay pos ⟨0, 0⟩).cast_to_circle c radius = none)
      ∧ ∀ r : Ray, r.direction.x * (e.y - s.y) - r.direction.y * (e.x - s.x) = 0
          → r.cast_to_line_segment s e = none := by
  have hdir : (mkRay pos ⟨0, 0⟩).direction = Vector2.mk 0 0 := by
    rw [mkRay]
    exact Vector2.normalise_zero
  have hposition : (mkRay pos ⟨0, 0⟩).position = pos := rfl
  refine ⟨?_, ?_, ?_, ?_⟩
  · simp [Ray.cast_to_line_segment, hdir]
  · intro h
    simp only [Ray.cast_to_circle, hdir, hposition]
    split_ifs with h1 h2
    · congr 1
      ext <;> simp
    · exfalso
      apply h2
      rw [h]
      norm_num
    · exfalso
      apply h1
      rw [h]
      norm_num
  · intro h
    simp only [Ray.cast_to_circle, hdir, hposition]
    split_ifs with h1 h2
    · exfalso
      norm_num at h1 h2
      have hz : Real.sqrt (radius ^ 2 - ((pos.x - c.x) ^ 2 + (pos.y - c.y) ^ 2)) = 0 :=
        le_antisymm h2 (Real.sqrt_nonneg _)
      have hle : radius ^ 2 - ((pos.x - c.x) ^ 2 + (pos.y - c.y) ^ 2) ≤ 0 :=
        Real.sqrt_eq_zero'.mp hz
      exact h (by linarith)
    · rfl
    · rfl
  · intro r h
    simp [Ray.cast_to_line_segment, h]

/-- C8 witness: the amended statement applied at a concrete degenerate ray, a
concrete segment, and a concrete circle that does not pass through the ray's
origin. -/
theorem C8_witness :
    (mkRay ⟨3, 0⟩ ⟨0, 0⟩).cast_to_line_segment ⟨0, 0⟩ ⟨0, 1⟩ = none
      ∧ (mkRay ⟨3, 0⟩ ⟨0, 0⟩).cast_to_circle ⟨0, 0⟩ 1 = none := by
  have h := C8_degenerate_ray ⟨3, 0⟩ ⟨0, 0⟩ ⟨0, 1⟩ ⟨0, 0⟩ 1
  exact ⟨h.1, h.2.2.1 (by norm_num)⟩

/-! The table, `table.py` class `Table`. -/

/-- The pocket capture lists, `table.py` lines 57-64: a dict from the six
fixed pocket names to lists of captured balls. -/
structure Pockets where
  top_left : List Ball
  top_right : List Ball
  center_left : List Ball
  center_right : List Ball
  bottom_left : List Ball
  bottom_right : List Ball

/-- The initial pockets dict: every capture list empty. -/
def Pockets.empty : Pockets := ⟨[], [], [], [], [], []⟩

/-- Look up one pocket's capture list by name. -/
def Pockets.get (ps : Pockets) : PocketName → List Ball
  | .top_left => ps.top_left
  | .top_right => ps.top_right
  | .center_left => ps.center_left
  | .center_right => ps.center_right
  | .bottom_left => ps.bottom_left
  | .bottom_right => ps.bottom_right

/-- `table.py` line 342, `self.pockets[pocket].append(ball)`. -/
def Pockets.addBall (ps : Pockets) (p : PocketName) (b : Ball) : Pockets :=
  match p with
  | .top_left => { ps with top_left := ps.top_left ++ [b] }
  | .top_right => { ps with top_right := ps.top_right ++ [b] }
  | .center_left => { ps with center_left := ps.center_left ++ [b] }
  | .center_right => { ps with center_right := ps.center_right ++ [b] }
  | .bottom_left => { ps with bottom_left := ps.bottom_left ++ [b] }
  | .bottom_right => { ps with bottom_right := ps.bottom_right ++ [b] }

theorem Pockets.addBall_get (ps : Pockets) (p : PocketName) (b : Ball) :
    (ps.addBall p b).get p = ps.get p ++ [b] := by
  cases p <;> rfl

/-- `table.py` lines 53-82, `Table.__init__`: the game state. The per-frame
drawing flag `is_aiming` is kept for completeness. -/
structure Table where
  balls : List Ball
  cue_ball : Option Ball
  is_aiming : Bool
  pockets : Pockets
  current_player : ℤ
  shots_left : ℤ
  player1_balls : List (ℕ × ℕ × ℕ)
  player2_balls : List (ℕ × ℕ × ℕ)
  player1_ball_type : Option BallType
  player2_ball_type : Option BallType
  is_turn_in_play : Bool
  was_white_ball_pocketed : Bool
  has_ball_been_hit_this_turn : Bool
  was_wrong_ball_hit : Bool
  was_wrong_ball_pocketed : Bool
  was_black_ball_pocketed : Bool
  is_game_over : Bool
  winner : Option ℤ

/-- `table.py` lines 286-293: `are_balls_moving` is true iff some ball on the
table has speed above the 0.1 stop threshold. -/
def Table.are_balls_moving (t : Table) : Prop :=
  ∃ b ∈ t.balls, b.velocity.length > 0.1

/-- `table.py` lines 210-216: `game_over` marks the game over and records the
winner. -/
def Table.game_over (t : Table) (winner : ℤ) : Table :=
  { t with is_game_over := true, winner := some winner }

/-- `table.py` lines 218-223: `change_player`
(`self.current_player = 1 if self.current_player == 2 else 2`). -/
def Table.change_player (t : Table) : Table :=
  { t with current_player := if t.current_player = 2 then 1 else 2 }

/-- `table.py` lines 225-234: `reset_rules` clears the per-turn flags. -/
def Table.reset_rules (t : Table) : Table :=
  { t with
      has_ball_been_hit_this_turn := false,
      was_white_ball_pocketed := false,
      was_black_ball_pocketed := false,
      was_wrong_ball_hit := false,
      was_wrong_ball_pocketed := false }

/-- The fresh cue ball made by `reset_cue_ball`, `table.py` line 136:
`Ball(150 + 150, 100 + 400, BALL_WHITE, BallType.Cue, ball_id=0)`; the `Ball`
constructor sets radius 10 and zero velocity. -/
def newCueBall : Ball :=
  ⟨150 + 150, 100 + 400, BALL_WHITE, BallType.Cue, 0, 10, ⟨0, 0⟩⟩

/-- `table.py` lines 131-137: `reset_cue_ball` creates a fresh cue ball and
appends it to the ball list. -/
def Table.reset_cue_ball (t : Table) : Table :=
  { t with cue_ball := some newCueBall, balls := t.balls ++ [newCueBall] }

/-- `table.py` lines 159-174: the black-ball block of `process_game_rules`. -/
def Table.settle_black (t : Table) : Table :=
  if t.was_black_ball_pocketed then
    if t.was_white_ball_pocketed then
      if t.current_player = 1 then t.game_over 2
      else if t.current_player = 2 then t.game_over 1
      else t
    else if t.current_player = 1 then
      if t.player1_balls.length = 0 then t.game_over 1 else t.game_over 2
    else if t.current_player = 2 then
      if t.player2_balls.length = 0 then t.game_over 2 else t.game_over 1
    else t
  else t

/-- `table.py` lines 176-206: the white-ball / missed-or-wrong-ball / spent
shots block of `process_game_rules`. -/
def Table.settle_white_or_foul (t : Table) : Table :=
  if t.was_white_ball_pocketed then
    let t1 := t.reset_cue_ball
    let t2 := { t1 with was_white_ball_pocketed := false }
    let t3 := t2.change_player
    if t3.current_player = 1 then
      { t3 with shots_left := if t3.player1_balls.length = 0 then 1 else 2 }
    else if t3.current_player = 2 then
      { t3 with shots_left := if t3.player2_balls.length = 0 then 1 else 2 }
    else t3
  else if !t.has_ball_been_hit_this_turn || t.was_wrong_ball_hit
      || t.was_wrong_ball_pocketed then
    let t3 := t.change_player
    if t3.current_player = 1 then
      { t3 with shots_left := if t3.player1_balls.length = 0 then 1 else 2 }
    else if t3.current_player = 2 then
      { t3 with shots_left := if t3.player2_balls.length = 0 then 1 else 2 }
    else t3
  else if t.shots_left = 0 then
    { t.change_player with shots_left := 1 }
  else t

/-- `table.py` lines 150-208: `process_game_rules`. Nothing happens unless a
turn is in play and every ball has settled; then the turn is closed, the
black-ball block and the white-ball/foul block run in order, and the
per-turn flags are reset. -/
def Table.process_game_rules (t : Table) : Table :=
  if t.is_turn_in_play then
    if ¬ t.are_balls_moving then
      ((({ t with is_turn_in_play := false }).settle_black).settle_white_or_foul).reset_rules
    else t
  else t

theorem Table.reset_rules_is_game_over (t : Table) :
    (t.reset_rules).is_game_over = t.is_game_over := rfl

theorem Table.reset_rules_winner (t : Table) : (t.reset_rules).winner = t.winner := rfl

/-- The white-ball/foul block never touches `is_game_over`. -/
theorem Table.settle_white_or_foul_is_game_over (t : Table) :
    (t.settle_white_or_foul).is_game_over = t.is_game_over := by
  simp only [Table.settle_white_or_foul]
  split_ifs <;> rfl

/-- The white-ball/foul block never touches `winner`. -/
theorem Table.settle_white_or_foul_winner (t : Table) :
    (t.settle_white_or_foul).winner = t.winner := by
  simp only [Table.settle_white_or_foul]
  split_ifs <;> rfl

/-- A baseline table state: no balls, no cue ball, player 1 to move, one shot
left, both players still owed every colour, no types assigned, all per-turn
flags clear. -/
def table0 : Table :=
  { balls := []
    cue_ball := none
    is_aiming := false
    pockets := Pockets.empty
    current_player := 1
    shots_left := 1
    player1_balls := BALL_COLOURS
    player2_balls := BALL_COLOURS
    player1_ball_type := none
    player2_ball_type := none
    is_turn_in_play := false
    was_white_ball_pocketed := false
    has_ball_been_hit_this_turn := false
    was_wrong_ball_hit := false
    was_wrong_ball_pocketed := false
    was_black_ball_pocketed := false
    is_game_over := false
    winner := none }

/-- C1 amended: on a settled turn with the black ball pocketed the game ends
(`is_game_over` becomes true) and the winner is the opponent of the current
player if the cue ball was also pocketed or if the current player still has
remaining balls, else the current player — but settlement processing
continues after `game_over`: the flags are cleared and, when the cue ball was
also pocketed, the cue ball is respawned, the player is switched and
`shots_left` is recalculated, all after the game is already over. -/
theorem C1_black_pocket_ends_game (t : Table)
    (hplay : t.is_turn_in_play = true)
    (hstill : ¬ t.are_balls_moving)
    (hblack : t.was_black_ball_pocketed = true)
    (hcur : t.current_player = 1 ∨ t.current_player = 2) :
    (t.process_game_rules).is_game_over = true
      ∧ (t.process_game_rules).winner
          = some (if t.was_white_ball_pocketed then (if t.current_player = 2 then 1 else 2)
              else if (if t.current_player = 1 then t.player1_balls
                  else t.player2_balls).length = 0 then t.current_player
              else (if t.current_player = 2 then 1 else 2))
      ∧ (t.process_game_rules).was_black_ball_pocketed = false
      ∧ (t.process_game_rules).was_white_ball_pocketed = false
      ∧ (t.was_white_ball_pocketed = true
          → (t.process_game_rules).current_player = (if t.current_player = 2 then 1 else 2)
            ∧ (t.process_game_rules).cue_ball = some newCueBall
            ∧ (t.process_game_rules).balls = t.balls ++ [newCueBall]
            ∧ (t.process_game_rules).shots_left
                = (if (if t.current_player = 2 then t.player1_balls
                    else t.player2_balls).length = 0 then 1 else 2)) := by
  have hpr : t.process_game_rules
      = ((({ t with is_turn_in_play := false }).settle_black).settle_white_or_foul).reset_rules := by
    simp [Table.process_game_rules, hplay, hstill]
  refine ⟨?_, ?_, ?_, ?_, ?_⟩
  · rw [hpr, Table.reset_rules_is_game_over, Table.settle_white_or_foul_is_game_over]
    rcases hcur with hc | hc <;> by_cases hw : t.was_white_ball_pocketed = true <;>
      by_cases hlen1 : t.player1_balls.length = 0 <;>
      by_cases hlen2 : t.player2_balls.length = 0 <;>
      norm_num [Table.settle_black, Table.game_over, hblack, hw, hc, hlen1, hlen2]
  · rw [hpr, Table.reset_rules_winner, Table.settle_white_or_foul_winner]
    rcases hcur with hc | hc <;> by_cases hw : t.was_white_ball_pocketed = true <;>
      by_cases hlen1 : t.player1_balls.length = 0 <;>
      by_cases hlen2 : t.player2_balls.length = 0 <;>
      norm_num [Table.settle_black, Table.game_over, hblack, hw, hc, hlen1, hlen2]
  · rw [hpr]
    rfl
  · rw [hpr]
    rfl
  · intro hws
    rw [hpr]
    rcases hcur with hc | hc <;>
      refine ⟨?_, ?_, ?_, ?_⟩ <;>
      norm_num [Table.settle_black, Table.settle_white_or_foul, Table.reset_rules,
        Table.game_over, Table.change_player, Table.reset_cue_ball, hblack, hws, hc]

/-- The concrete settled table used to refute C1 as stated: black and white
both pocketed, player 1 shooting, no balls left on the table. -/
def T1 : Table :=
  { table0 with
      is_turn_in_play := true
      was_black_ball_pocketed := true
      was_white_ball_pocketed := true
      has_ball_been_hit_this_turn := true
      shots_left := 0 }

/-- C1 counterexample: on the settled state `T1` (turn in play, no balls
moving, black and white both pocketed, player 1 shooting with `shots_left`
0 and no cue ball) the game does end with winner 2, but settlement
processing still takes effect afterwards: the player switches to 2, a fresh
cue ball is respawned onto the table, and `shots_left` is recalculated to 2.
This refutes the claim that no further settlement processing takes effect
once the game is over. -/
theorem C1_counterexample :
    T1.is_turn_in_play = true ∧ T1.balls = [] ∧ T1.was_black_ball_pocketed = true
      ∧ T1.was_white_ball_pocketed = true ∧ T1.current_player = 1
      ∧ T1.cue_ball = none ∧ T1.shots_left = 0
      ∧ (T1.process_game_rules).is_game_over = true
      ∧ (T1.process_game_rules).winner = some 2
      ∧ (T1.process_game_rules).current_player = 2
      ∧ (T1.process_game_rules).cue_ball = some newCueBall
      ∧ (T1.process_game_rules).balls = [newCueBall]
      ∧ (T1.process_game_rules).shots_left = 2 := by
  refine ⟨rfl, rfl, rfl, rfl, rfl, rfl, rfl, ?_, ?_, ?_, ?_, ?_, ?_⟩ <;>
    norm_num [Table.process_game_rules, Table.are_balls_moving, Table.settle_black,
      Table.settle_white_or_foul, Table.reset_rules, Table.game_over, Table.change_player,
      Table.reset_cue_ball, T1, table0, BALL_COLOURS]

/-- The concrete settled table used to witness the amended C1: black and white
both pocketed with player 2 shooting. -/
def W1 : Table :=
  { table0 with
      is_turn_in_play := true
      was_black_ball_pocketed := true
      was_white_ball_pocketed := true
      current_player := 2 }

/-- C1 witness: the amended statement applied to the concrete settled state
`W1` (player 2 pockets the black and the white together): player 1 wins and
the post-game player switch still happens. -/
theorem C1_witness :
    (W1.process_game_rules).is_game_over = true
      ∧ (W1.process_game_rules).winner = some 1
      ∧ (W1.process_game_rules).current_player = 1 := by
  have h := C1_black_pocket_ends_game W1 rfl
    (by simp [Table.are_balls_moving, W1, table0]) rfl (Or.inr rfl)
  refine ⟨h.1, ?_, ?_⟩
  · rw [h.2.1]
    norm_num [W1, table0]
  · rw [(h.2.2.2.2 rfl).1]
    norm_num [W1, table0]

/-! Claim C2: `check_pockets`. -/

/-- Python's identity test `ball is self.cue_ball` (`table.py` line 337),
via the unique ball id (the cue ball always has id 0, object balls 1..15). -/
def Table.is_cue (t : Table) (ball : Ball) : Prop :=
  match t.cue_ball with
  | some cb => cb.ball_id = ball.ball_id
  | none => False

/-- Python's `self.balls.remove(ball)` (`table.py` line 336): removes the
first list entry that is the given ball, identity taken via the unique
ball id. -/
def removeBall (bs : List Ball) (ball : Ball) : List Ball :=
  match bs with
  | [] => []
  | b :: rest => if b.ball_id = ball.ball_id then rest else b :: removeBall rest ball

/-- `table.py` lines 340-341: set `was_black_ball_pocketed` when the pocketed
ball is the black ball. -/
def Table.flag_black (t1 : Table) (ball : Ball) : Table :=
  if ball.ball_type = BallType.Black
    then { t1 with was_black_ball_pocketed := true } else t1

/-- `table.py` line 342: append the pocketed ball to that pocket's capture
list. -/
def Table.capture_ball (t2 : Table) (pocket : PocketName) (ball : Ball) : Table :=
  { t2 with pockets := t2.pockets.addBall pocket ball }

/-- `table.py` lines 343-354: first pocketed money ball assigns the shooter's
type (and the opposite type to the opponent); afterwards a pocketed ball of
the wrong type raises `was_wrong_ball_pocketed`. -/
def Table.assign_types (t3 : Table) (ball : Ball) : Table :=
  if t3.current_player = 1 then
    if t3.player1_ball_type = none then
      { t3 with
          player1_ball_type := some ball.ball_type,
          player2_ball_type := some (if ball.ball_type = BallType.Stripe
            then BallType.Solid else BallType.Stripe) }
    else if ¬ (t3.player1_ball_type = some ball.ball_type) then
      { t3 with was_wrong_ball_pocketed := true }
    else t3
  else if t3.current_player = 2 then
    if t3.player2_ball_type = none then
      { t3 with
          player2_ball_type := some ball.ball_type,
          player1_ball_type := some (if ball.ball_type = BallType.Stripe
            then BallType.Solid else BallType.Stripe) }
    else if ¬ (t3.player2_ball_type = some ball.ball_type) then
      { t3 with was_wrong_ball_pocketed := true }
    else t3
  else t3

/-- `table.py` lines 356-359: remove the pocketed colour from the owning
player's remaining list. Python's `list.remove` raises if the colour is
absent, which cannot happen in reachable states; it is embedded as
`List.erase`. -/
def Table.remove_pocketed_colour (t4 : Table) (ball : Ball) : Table :=
  if t4.player1_ball_type = some ball.ball_type then
    { t4 with player1_balls := t4.player1_balls.erase ball.colour }
  else if t4.player2_ball_type = some ball.ball_type then
    { t4 with player2_balls := t4.player2_balls.erase ball.colour }
  else t4

/-- `table.py` lines 339-359: the non-cue (`else`) branch of `check_pockets`,
run on the state that already has the shot bonus added and the ball removed:
the four statement blocks of the source in order. -/
def Table.pocket_object_ball (t1 : Table) (ball : Ball) (pocket : PocketName) : Table :=
  ((((t1.flag_black ball).capture_ball pocket ball).assign_types ball).remove_pocketed_colour
    ball)

/-- `table.py` lines 328-359: `check_pockets`. On a pocketed ball the shot
bonus is incremented and the ball removed; the cue ball then only sets
`was_white_ball_pocketed`, any other ball runs the non-cue bookkeeping. -/
def Table.check_pockets (t : Table) (ball : Ball) : Table :=
  match ball.is_in_pocket with
  | none => t
  | some pocket =>
    let t1 := { t with shots_left := t.shots_left + 1, balls := removeBall t.balls ball }
    if t1.is_cue ball then
      { t1 with was_white_ball_pocketed := true }
    else
      t1.pocket_object_ball ball pocket

theorem Table.flag_black_shots_left (t1 : Table) (ball : Ball) :
    (t1.flag_black ball).shots_left = t1.shots_left := by
  simp only [Table.flag_black]
  split_ifs <;> rfl

theorem Table.flag_black_balls (t1 : Table) (ball : Ball) :
    (t1.flag_black ball).balls = t1.balls := by
  simp only [Table.flag_black]
  split_ifs <;> rfl

theorem Table.flag_black_was_white (t1 : Table) (ball : Ball) :
    (t1.flag_black ball).was_white_ball_pocketed = t1.was_white_ball_pocketed := by
  simp only [Table.flag_black]
  split_ifs <;> rfl

theorem Table.flag_black_pockets (t1 : Table) (ball : Ball) :
    (t1.flag_black ball).pockets = t1.pockets := by
  simp only [Table.flag_black]
  split_ifs <;> rfl

theorem Table.flag_black_current_player (t1 : Table) (ball : Ball) :
    (t1.flag_black ball).current_player = t1.current_player := by
  simp only [Table.flag_black]
  split_ifs <;> rfl

theorem Table.flag_black_p1_type (t1 : Table) (ball : Ball) :
    (t1.flag_black ball).player1_ball_type = t1.player1_ball_type := by
  simp only [Table.flag_black]
  split_ifs <;> rfl

theorem Table.flag_black_p2_type (t1 : Table) (ball : Ball) :
    (t1.flag_black ball).player2_ball_type = t1.player2_ball_type := by
  simp only [Table.flag_black]
  split_ifs <;> rfl

theorem Table.assign_types_shots_left (t3 : Table) (ball : Ball) :
    (t3.assign_types ball).shots_left = t3.shots_left := by
  simp only [Table.assign_types]
  split_ifs <;> rfl

theorem Table.assign_types_balls (t3 : Table) (ball : Ball) :
    (t3.assign_types ball).balls = t3.balls := by
  simp only [Table.assign_types]
  split_ifs <;> rfl

theorem Table.assign_types_was_white (t3 : Table) (ball : Ball) :
    (t3.assign_types ball).was_white_ball_pocketed = t3.was_white_ball_pocketed := by
  simp only [Table.assign_types]
  split_ifs <;> rfl

theorem Table.assign_types_was_black (t3 : Table) (ball : Ball) :
    (t3.assign_types ball).was_black_ball_pocketed = t3.was_black_ball_pocketed := by
  simp only [Table.assign_types]
  split_ifs <;> rfl

theorem Table.assign_types_pockets (t3 : Table) (ball : Ball) :
    (t3.assign_types ball).pockets = t3.pockets := by
  simp only [Table.assign_types]
  split_ifs <;> rfl

theorem Table.assign_types_assign (t3 : Table) (ball : Ball)
    (hc1 : t3.current_player = 1) (hnone : t3.player1_ball_type = none) :
    (t3.assign_types ball).player1_ball_type = some ball.ball_type
      ∧ (t3.assign_types ball).player2_ball_type
          = some (if ball.ball_type = BallType.Stripe
              then BallType.Solid else BallType.Stripe) := by
  simp [Table.assign_types, hc1, hnone]

theorem Table.remove_pocketed_colour_shots_left (t4 : Table) (ball : Ball) :
    (t4.remove_pocketed_colour ball).shots_left = t4.shots_left := by
  simp only [Table.remove_pocketed_colour]
  split_ifs <;> rfl

theorem Table.remove_pocketed_colour_balls (t4 : Table) (ball : Ball) :
    (t4.remove_pocketed_colour ball).balls = t4.balls := by
  simp only [Table.remove_pocketed_colour]
  split_ifs <;> rfl

theorem Table.remove_pocketed_colour_was_white (t4 : Table) (ball : Ball) :
    (t4.remove_pocketed_colour ball).was_white_ball_pocketed
      = t4.was_white_ball_pocketed := by
  simp only [Table.remove_pocketed_colour]
  split_ifs <;> rfl

theorem Table.remove_pocketed_colour_was_black (t4 : Table) (ball : Ball) :
    (t4.remove_pocketed_colour ball).was_black_ball_pocketed
      = t4.was_black_ball_pocketed := by
  simp only [Table.remove_pocketed_colour]
  split_ifs <;> rfl

theorem Table.remove_pocketed_colour_pockets (t4 : Table) (ball : Ball) :
    (t4.remove_pocketed_colour ball).pockets = t4.pockets := by
  simp only [Table.remove_pocketed_colour]
  split_ifs <;> rfl

theorem Table.remove_pocketed_colour_p1_type (t4 : Table) (ball : Ball) :
    (t4.remove_pocketed_colour ball).player1_ball_type = t4.player1_ball_type := by
  simp only [Table.remove_pocketed_colour]
  split_ifs <;> rfl

theorem Table.remove_pocketed_colour_p2_type (t4 : Table) (ball : Ball) :
    (t4.remove_pocketed_colour ball).player2_ball_type = t4.player2_ball_type := by
  simp only [Table.remove_pocketed_colour]
  split_ifs <;> rfl

theorem Table.pocket_object_ball_shots_left (t1 : Table) (ball : Ball) (pocket : PocketName) :
    (t1.pocket_object_ball ball pocket).shots_left = t1.shots_left := by
  rw [Table.pocket_object_ball, Table.remove_pocketed_colour_shots_left,
    Table.assign_types_shots_left, Table.capture_ball, Table.flag_black_shots_left]

theorem Table.pocket_object_ball_balls (t1 : Table) (ball : Ball) (pocket : PocketName) :
    (t1.pocket_object_ball ball pocket).balls = t1.balls := by
  rw [Table.pocket_object_ball, Table.remove_pocketed_colour_balls,
    Table.assign_types_balls, Table.capture_ball, Table.flag_black_balls]

theorem Table.pocket_object_ball_was_white (t1 : Table) (ball : Ball) (pocket : PocketName) :
    (t1.pocket_object_ball ball pocket).was_white_ball_pocketed
      = t1.was_white_ball_pocketed := by
  rw [Table.pocket_object_ball, Table.remove_pocketed_colour_was_white,
    Table.assign_types_was_white, Table.capture_ball, Table.flag_black_was_white]

theorem Table.pocket_object_ball_pockets_get (t1 : Table) (ball : Ball) (pocket : PocketName) :
    (t1.pocket_object_ball ball pocket).pockets.get pocket
      = t1.pockets.get pocket ++ [ball] := by
  rw [Table.pocket_object_ball, Table.remove_pocketed_colour_pockets,
    Table.assign_types_pockets, Table.capture_ball]
  show ((t1.flag_black ball).pockets.addBall pocket ball).get pocket = _
  rw [Pockets.addBall_get, Table.flag_black_pockets]

theorem Table.pocket_object_ball_black (t1 : Table) (ball : Ball) (pocket : PocketName)
    (hb : ball.ball_type = BallType.Black) :
    (t1.pocket_object_ball ball pocket).was_black_ball_pocketed = true := by
  rw [Table.pocket_object_ball, Table.remove_pocketed_colour_was_black,
    Table.assign_types_was_black, Table.capture_ball]
  show (t1.flag_black ball).was_black_ball_pocketed = true
  rw [Table.flag_black, if_pos hb]

theorem Table.pocket_object_ball_assign (t1 : Table) (ball : Ball) (pocket : PocketName)
    (hc1 : t1.current_player = 1) (hnone : t1.player1_ball_type = none) :
    (t1.pocket_object_ball ball pocket).player1_ball_type = some ball.ball_type
      ∧ (t1.pocket_object_ball ball pocket).player2_ball_type
          = some (if ball.ball_type = BallType.Stripe
              then BallType.Solid else BallType.Stripe) := by
  have hc1' : ((t1.flag_black ball).capture_ball pocket ball).current_player = 1 := by
    rw [Table.capture_ball]
    show (t1.flag_black ball).current_player = 1
    rw [Table.flag_black_current_player, hc1]
  have hnone' : ((t1.flag_black ball).capture_ball pocket ball).player1_ball_type = none := by
    rw [Table.capture_ball]
    show (t1.flag_black ball).player1_ball_type = none
    rw [Table.flag_black_p1_type, hnone]
  have h := Table.assign_types_assign ((t1.flag_black ball).capture_ball pocket ball)
    ball hc1' hnone'
  rw [Table.pocket_object_ball, Table.remove_pocketed_colour_p1_type,
    Table.remove_pocketed_colour_p2_type]
  exact h

/-- C2 amended: for every ball that `check_pockets` finds in a pocket, the
shooter's `shots_left` is incremented by one — unconditionally, before the
cue-ball test, so pocketing the cue ball also increments it — and the ball is
removed from play; the cue ball additionally only sets
`was_white_ball_pocketed`; any other ball is appended to that pocket's
capture list, sets `was_black_ball_pocketed` when it is the black ball, and
triggers the type assignment when the shooting player has no type yet. -/
theorem C2_check_pockets (t : Table) (ball : Ball) (pocket : PocketName)
    (h : ball.is_in_pocket = some pocket) :
    (t.check_pockets ball).shots_left = t.shots_left + 1
      ∧ (t.check_pockets ball).balls = removeBall t.balls ball
      ∧ (t.is_cue ball →
          (t.check_pockets ball).was_white_ball_pocketed = true
            ∧ (t.check_pockets ball).pockets = t.pockets
            ∧ (t.check_pockets ball).was_black_ball_pocketed = t.was_black_ball_pocketed
            ∧ (t.check_pockets ball).player1_ball_type = t.player1_ball_type
            ∧ (t.check_pockets ball).player2_ball_type = t.player2_ball_type)
      ∧ (¬ t.is_cue ball →
          (t.check_pockets ball).was_white_ball_pocketed = t.was_white_ball_pocketed
            ∧ (t.check_pockets ball).pockets.get pocket = t.pockets.get pocket ++ [ball]
            ∧ (ball.ball_type = BallType.Black
                → (t.check_pockets ball).was_black_ball_pocketed = true)
            ∧ (t.current_player = 1 → t.player1_ball_type = none
                → (t.check_pockets ball).player1_ball_type = some ball.ball_type
                  ∧ (t.check_pockets ball).player2_ball_type
                      = some (if ball.ball_type = BallType.Stripe
                          then BallType.Solid else BallType.Stripe))) := by
  refine ⟨?_, ?_, ?_, ?_⟩
  · simp only [Table.check_pockets, h]
    split_ifs
    · rfl
    · rw [Table.pocket_object_ball_shots_left]
  · simp only [Table.check_pockets, h]
    split_ifs
    · rfl
    · rw [Table.pocket_object_ball_balls]
  · intro hcue
    have hcue1 : Table.is_cue
        { t with shots_left := t.shots_left + 1, balls := removeBall t.balls ball } ball := hcue
    simp only [Table.check_pockets, h]
    rw [if_pos hcue1]
    exact ⟨rfl, rfl, rfl, rfl, rfl⟩
  · intro hcue
    have hcue1 : ¬ Table.is_cue
        { t with shots_left := t.shots_left + 1, balls := removeBall t.balls ball } ball := hcue
    simp only [Table.check_pockets, h]
    rw [if_neg hcue1]
    refine ⟨?_, ?_, ?_, ?_⟩
    · rw [Table.pocket_object_ball_was_white]
    · rw [Table.pocket_object_ball_pockets_get]
    · intro hb
      exact Table.pocket_object_ball_black _ ball pocket hb
    · intro hc1 hnone
      exact Table.pocket_object_ball_assign _ ball pocket hc1 hnone

/-- A ball whose center sits exactly on the top-left pocket center is always
reported in that pocket: its distance is 0, and the computed overlap fraction
is `625 / 900`, above the threshold. -/
theorem is_in_pocket_center_top_left (c : ℕ × ℕ × ℕ) (bt : BallType) (i : ℤ) (v : Vector2) :
    (Ball.mk (150 + 5) (100 + 5) c bt i 10 v).is_in_pocket = some PocketName.top_left := by
  have hd : pocket_distance (Ball.mk (150 + 5) (100 + 5) c bt i 10 v) (150 + 5) (100 + 5)
      = 0 := by
    norm_num [pocket_distance]
  have hc1 : pocket_distance (Ball.mk (150 + 5) (100 + 5) c bt i 10 v) (150 + 5) (100 + 5)
      < (Ball.mk (150 + 5) (100 + 5) c bt i 10 v).radius + 15 := by
    rw [hd]
    norm_num
  have hm : max (Ball.mk (150 + 5) (100 + 5) c bt i 10 v).radius (15 : ℝ) = 15 :=
    max_eq_right (by norm_num)
  have hc2 : overlap_fraction (Ball.mk (150 + 5) (100 + 5) c bt i 10 v) (150 + 5) (100 + 5)
      ≥ 0.15 := by
    rw [overlap_fraction, hd, hm]
    norm_num
  simp only [Ball.is_in_pocket, pocket_centers, isInPocketAux]
  rw [if_pos hc1, if_pos hc2]

/-- The concrete cue ball sitting on the top-left pocket center, used to
refute C2 as stated. -/
def CB2 : Ball := ⟨150 + 5, 100 + 5, BALL_WHITE, BallType.Cue, 0, 10, ⟨0, 0⟩⟩

/-- The concrete table holding only the cue ball `CB2`, with 5 shots left. -/
def T2 : Table := { table0 with balls := [CB2], cue_ball := some CB2, shots_left := 5 }

/-- C2 counterexample: pocketing the cue ball `CB2` increments `shots_left`
from 5 to 6 (the increment sits before the cue-ball branch), refuting the
claim that the increment belongs to the non-cue branch and that pocketing
the cue ball does not increment `shots_left`. -/
theorem C2_counterexample :
    T2.cue_ball = some CB2 ∧ T2.shots_left = 5
      ∧ (T2.check_pockets CB2).shots_left = 6
      ∧ (T2.check_pockets CB2).was_white_ball_pocketed = true
      ∧ (T2.check_pockets CB2).balls = [] := by
  have hp : CB2.is_in_pocket = some PocketName.top_left :=
    is_in_pocket_center_top_left BALL_WHITE BallType.Cue 0 ⟨0, 0⟩
  refine ⟨rfl, rfl, ?_, ?_, ?_⟩ <;>
    · simp only [Table.check_pockets, hp]
      norm_num [Table.is_cue, removeBall, T2, table0, CB2]

/-- The concrete solid ball sitting on the top-left pocket center, used to
witness the amended C2. -/
def S2 : Ball := ⟨150 + 5, 100 + 5, GREEN, BallType.Solid, 4, 10, ⟨0, 0⟩⟩

/-- The concrete table holding only the solid ball `S2` (no cue ball on the
table for simplicity), player 1 shooting with no types assigned. -/
def W2 : Table := { table0 with balls := [S2] }

/-- C2 witness: the amended statement applied to the solid ball `S2` pocketed
by player 1 before any type assignment: `shots_left` is incremented, player
1 becomes Solid, and the ball lands in the top-left capture list. -/
theorem C2_witness :
    (W2.check_pockets S2).shots_left = W2.shots_left + 1
      ∧ (W2.check_pockets S2).player1_ball_type = some BallType.Solid
      ∧ (W2.check_pockets S2).pockets.get PocketName.top_left = [S2] := by
  have hp : S2.is_in_pocket = some PocketName.top_left :=
    is_in_pocket_center_top_left GREEN BallType.Solid 4 ⟨0, 0⟩
  have h := C2_check_pockets W2 S2 PocketName.top_left hp
  have hnc : ¬ W2.is_cue S2 := by simp [Table.is_cue, W2, table0]
  refine ⟨h.1, ?_, ?_⟩
  · rw [((h.2.2.2 hnc).2.2.2 rfl rfl).1]
    rfl
  · rw [(h.2.2.2 hnc).2.1]
    rfl

/-! Claims C9 and C10: `shoot` and `get_power`. Pointer polling is external,
so both functions receive the mouse position as an argument. -/

/-- `table.py` lines 271-284: `shoot`. When a cue ball exists its velocity is
set to `power * direction` (the direction from the aim point towards the cue
ball); in Python this mutates the object that also sits in `self.balls`, so
the embedding updates both the stored cue ball and the list entry carrying
the cue ball's id. The final two statements — marking the turn in play and
decrementing `shots_left` — sit outside the `if` and run regardless of
whether a cue ball exists. -/
def Table.shoot (t : Table) (power : ℝ) (mouse_pos : Vector2) : Table :=
  let t' :=
    match t.cue_ball with
    | some cb =>
      let direction := (Vector2.mk cb.x cb.y - mouse_pos).normalise
      { t with
          cue_ball := some { cb with velocity := power * direction },
          balls := t.balls.map (fun (b : Ball) =>
            if b.ball_id = cb.ball_id then { b with velocity := power * direction } else b) }
    | none => t
  { t' with is_turn_in_play := true, shots_left := t'.shots_left - 1 }

/-- `table.py` lines 254-269: `get_power` returns
`MAX_POWER * min(1, line_length / MAX_POWER_LINE_LENGTH)` when a cue ball
exists and `0` otherwise. -/
def Table.get_power (t : Table) (mouse_pos : Vector2) : ℝ :=
  match t.cue_ball with
  | some cb =>
    let line_length := (Vector2.mk cb.x cb.y - mouse_pos).length
    let percent := min 1 (line_length / MAX_POWER_LINE_LENGTH)
    MAX_POWER * percent
  | none => 0

/-- C9 amended: with no cue ball neither `shoot` nor `get_power` fails fast —
both continue silently: `get_power` returns 0 and `shoot` skips only the
velocity assignment but still marks the turn in play and decrements
`shots_left`, mutating game state as if a shot had been taken. -/
theorem C9_shoot_without_cue_ball (t : Table) (power : ℝ) (mouse_pos : Vector2)
    (h : t.cue_ball = none) :
    t.shoot power mouse_pos
        = { t with is_turn_in_play := true, shots_left := t.shots_left - 1 }
      ∧ t.get_power mouse_pos = 0 := by
  constructor
  · simp only [Table.shoot, h]
  · simp only [Table.get_power, h]

/-- The concrete cue-less table used against C9. -/
def T9 : Table := { table0 with shots_left := 1 }

/-- C9 counterexample: on the concrete table `T9` with `cue_ball` absent,
`shoot` raises no error and still mutates the game state as if a shot had
been taken — `is_turn_in_play` flips to true and `shots_left` drops from 1
to 0 — and `get_power` silently returns 0; this refutes the claim that a
missing cue ball makes these calls fail fast without mutating state. -/
theorem C9_counterexample :
    T9.cue_ball = none ∧ T9.is_turn_in_play = false ∧ T9.shots_left = 1
      ∧ (T9.shoot 5 ⟨0, 0⟩).is_turn_in_play = true
      ∧ (T9.shoot 5 ⟨0, 0⟩).shots_left = 0
      ∧ T9.get_power ⟨0, 0⟩ = 0 := by
  refine ⟨rfl, rfl, rfl, ?_, ?_, ?_⟩ <;>
    simp [Table.shoot, Table.get_power, T9, table0]

/-- The concrete cue-less table used to witness the amended C9. -/
def W9 : Table := { table0 with shots_left := 3 }

/-- C9 witness: the amended statement applied to the concrete table `W9`. -/
theorem C9_witness :
    W9.shoot 7 ⟨2, 3⟩ = { W9 with is_turn_in_play := true, shots_left := W9.shots_left - 1 }
      ∧ W9.get_power ⟨2, 3⟩ = 0 :=
  C9_shoot_without_cue_ball W9 7 ⟨2, 3⟩ rfl

/-- C10: for every table state and mouse position, `get_power` lies between 0
and `MAX_POWER` (= 20) inclusive — the percentage is clamped by
`min 1 (line_length / MAX_POWER_LINE_LENGTH)` and the line length is a
nonnegative distance — and it is exactly 0 when `cue_ball` is absent. -/
theorem C10_power_bounds (t : Table) (mouse_pos : Vector2) :
    0 ≤ t.get_power mouse_pos ∧ t.get_power mouse_pos ≤ MAX_POWER
      ∧ (t.cue_ball = none → t.get_power mouse_pos = 0) := by
  rcases hcb : t.cue_ball with _ | cb
  · refine ⟨?_, ?_, fun _ => ?_⟩ <;> simp [Table.get_power, hcb, MAX_POWER]
  · have hlen : 0 ≤ (Vector2.mk cb.x cb.y - mouse_pos).length := Real.sqrt_nonneg _
    have hq : 0 ≤ (Vector2.mk cb.x cb.y - mouse_pos).length / MAX_POWER_LINE_LENGTH :=
      div_nonneg hlen (by norm_num [MAX_POWER_LINE_LENGTH])
    have hmin0 : 0 ≤ min 1 ((Vector2.mk cb.x cb.y - mouse_pos).length
        / MAX_POWER_LINE_LENGTH) := le_min (by norm_num) hq
    refine ⟨?_, ?_, fun hc => absurd hc (Option.some_ne_none cb)⟩
    · simp only [Table.get_power, hcb]
      exact mul_nonneg (by norm_num [MAX_POWER]) hmin0
    · simp only [Table.get_power, hcb]
      calc MAX_POWER * min 1 ((Vector2.mk cb.x cb.y - mouse_pos).length
            / MAX_POWER_LINE_LENGTH)
          ≤ MAX_POWER * 1 :=
            mul_le_mul_of_nonneg_left (min_le_left _ _) (by norm_num [MAX_POWER])
        _ = MAX_POWER := mul_one _

/-- C10 witness: the bounds and the zero-power case at the concrete cue-less
table `table0` and a concrete mouse position. -/
theorem C10_witness :
    0 ≤ table0.get_power ⟨4, 4⟩ ∧ table0.get_power ⟨4, 4⟩ ≤ MAX_POWER
      ∧ table0.get_power ⟨4, 4⟩ = 0 := by
  have h := C10_power_bounds table0 ⟨4, 4⟩
  exact ⟨h.1, h.2.1, h.2.2 rfl⟩

end

end PoolPy
